import Mathlib

/-!
Shallow embedding of `api/main.py` (System Info Collector API).

The service has two handlers over a relational store:
* `POST /collect` (`collect_data`): authenticated ingest of a telemetry
  snapshot; resolves the submitting host by network address, upserts the
  `systems` row, writes one `collections` row plus `processes` /
  `logged_users` children, commits atomically.
* `GET /query/{ip_address}` (`query_data`): returns the 5 most recent
  collections of a host, newest first, with children projected.

Machine-level conventions of the embedding:
* JSON numbers are `Rat` (the claims never depend on float rounding).
* `DateTime` values (`datetime.utcnow()`) are `Nat` clock readings passed
  in as `now`; the database is a pure `Store` value.
* SQLAlchemy auto-increment primary keys are modelled as the current row
  count of the table at insert time (rows are never deleted).
* A transaction that fails to commit leaves the durable store unchanged
  (the session is scoped per request and rolls back); failure injection is
  the `commitOk` flag checked at the `db.commit()` point.
-/

/-- A JSON value, as received in the request body before pydantic
validation.  Numbers are rationals. -/
inductive Json where
  | null : Json
  | bool (b : Bool) : Json
  | num (q : Rat) : Json
  | str (s : String) : Json
  | arr (elems : List Json) : Json
  | obj (fields : List (String × Json)) : Json

/-- Field lookup on a JSON object (first binding wins); `none` on
non-objects and absent keys. -/
def Json.getField : Json → String → Option Json
  | .obj fs, k => (fs.find? (fun kv => kv.1 == k)).map (fun kv => kv.2)
  | _, _ => none

/-- pydantic `CPUInfo`: all fields optional
(`physical_cores: int | None`, `total_cores: int | None`,
`frequency: float | str | None`, `usage_percent: float | None`,
`error: str | None`). -/
structure CPUInfo where
  physical_cores : Option Int
  total_cores : Option Int
  frequency : Option (Rat ⊕ String)
  usage_percent : Option Rat
  error : Option String
deriving Repr, DecidableEq

/-- pydantic `ProcessInfo`: `pid: int; name: str; username: str | None`. -/
structure ProcessInfo where
  pid : Int
  name : String
  username : Option String
deriving Repr, DecidableEq

/-- pydantic `UserInfo`: `user: str; terminal: str | None`. -/
structure UserInfo where
  user : String
  terminal : Option String
deriving Repr, DecidableEq

/-- One element of `running_processes: list[ProcessInfo | dict]`: either a
validated `ProcessInfo` or an unstructured JSON object kept as a `dict`. -/
def ProcEntry : Type := ProcessInfo ⊕ List (String × Json)

/-- pydantic `SystemData`: `os_name: str; os_version: str;
cpu_info: CPUInfo; running_processes: list[ProcessInfo | dict];
logged_in_users: list[UserInfo] | dict`.  Note the asymmetry: the
process field must be a sequence (only its elements may be raw dicts),
while the logged-in-users field as a whole may be a raw dict. -/
structure SystemData where
  os_name : String
  os_version : String
  cpu_info : CPUInfo
  running_processes : List ProcEntry
  logged_in_users : List UserInfo ⊕ List (String × Json)

/-- Validate a JSON value as a string (pydantic `str`). -/
def validateStr : Json → Except String String
  | .str s => .ok s
  | _ => .error "string_type"

/-- Validate a JSON value as an integer (pydantic `int`): a number with
denominator 1. -/
def validateInt : Json → Except String Int
  | .num q => if q.den = 1 then .ok q.num else .error "int_type"
  | _ => .error "int_type"

/-- Validate a JSON value as a float (pydantic `float`; ints accepted). -/
def validateNum : Json → Except String Rat
  | .num q => .ok q
  | _ => .error "float_type"

/-- Validate `float | str`. -/
def validateNumOrStr : Json → Except String (Rat ⊕ String)
  | .num q => .ok (.inl q)
  | .str s => .ok (.inr s)
  | _ => .error "union_type"

/-- An optional field of a pydantic model: absent or JSON null becomes
`none`; anything else must pass the element validator. -/
def optField (j : Json) (k : String) (v : Json → Except String α) :
    Except String (Option α) :=
  match j.getField k with
  | none => .ok none
  | some .null => .ok none
  | some x => (v x).map some

/-- A required field of a pydantic model: absent or JSON null is an
error. -/
def reqField (j : Json) (k : String) (v : Json → Except String α) :
    Except String α :=
  match j.getField k with
  | none => .error "missing"
  | some .null => .error "missing"
  | some x => v x

/-- Validate `cpu_info` against `CPUInfo` (an object; every field
optional). -/
def validateCPUInfo (j : Json) : Except String CPUInfo :=
  match j with
  | .obj _ =>
    match optField j "physical_cores" validateInt with
    | .error e => .error e
    | .ok pc =>
      match optField j "total_cores" validateInt with
      | .error e => .error e
      | .ok tc =>
        match optField j "frequency" validateNumOrStr with
        | .error e => .error e
        | .ok fr =>
          match optField j "usage_percent" validateNum with
          | .error e => .error e
          | .ok up =>
            match optField j "error" validateStr with
            | .error e => .error e
            | .ok er => .ok ⟨pc, tc, fr, up, er⟩
  | _ => .error "model_type"

/-- Validate a JSON value against `ProcessInfo` (object with required
`pid: int`, `name: str`, optional `username`). -/
def validateProcessInfo (j : Json) : Except String ProcessInfo :=
  match j with
  | .obj _ =>
    match reqField j "pid" validateInt with
    | .error e => .error e
    | .ok pid =>
      match reqField j "name" validateStr with
      | .error e => .error e
      | .ok name =>
        match optField j "username" validateStr with
        | .error e => .error e
        | .ok un => .ok ⟨pid, name, un⟩
  | _ => .error "model_type"

/-- Validate one element of `running_processes` against
`ProcessInfo | dict` (pydantic smart union: try the model, fall back to a
raw dict; a non-object that is no `ProcessInfo` fails). -/
def validateProcEntry (j : Json) : Except String ProcEntry :=
  match validateProcessInfo j with
  | .ok p => .ok (.inl p)
  | .error _ =>
    match j with
    | .obj fs => .ok (.inr fs)
    | _ => .error "union_type"

/-- Validate `running_processes` against `list[ProcessInfo | dict]`: the
value must be a JSON array; each element goes through the union. -/
def validateRunningProcesses (j : Json) : Except String (List ProcEntry) :=
  match j with
  | .arr es => es.mapM validateProcEntry
  | _ => .error "list_type"

/-- Validate a JSON value against `UserInfo` (object with required
`user: str`, optional `terminal`). -/
def validateUserInfo (j : Json) : Except String UserInfo :=
  match j with
  | .obj _ =>
    match reqField j "user" validateStr with
    | .error e => .error e
    | .ok u =>
      match optField j "terminal" validateStr with
      | .error e => .error e
      | .ok t => .ok ⟨u, t⟩
  | _ => .error "model_type"

/-- Validate `logged_in_users` against `list[UserInfo] | dict`: an array
of `UserInfo`, or a whole raw JSON object. -/
def validateLoggedInUsers (j : Json) :
    Except String (List UserInfo ⊕ List (String × Json)) :=
  match j with
  | .arr es => (es.mapM validateUserInfo).map Sum.inl
  | .obj fs => .ok (.inr fs)
  | _ => .error "union_type"

/-- Validate a request body against the pydantic model `SystemData`; a
failure is FastAPI's 422 Unprocessable Entity. -/
def validateSystemData (j : Json) : Except String SystemData :=
  match reqField j "os_name" validateStr with
  | .error e => .error e
  | .ok osn =>
    match reqField j "os_version" validateStr with
    | .error e => .error e
    | .ok osv =>
      match reqField j "cpu_info" validateCPUInfo with
      | .error e => .error e
      | .ok ci =>
        match reqField j "running_processes" validateRunningProcesses with
        | .error e => .error e
        | .ok rp =>
          match reqField j "logged_in_users" validateLoggedInUsers with
          | .error e => .error e
          | .ok lu => .ok ⟨osn, osv, ci, rp, lu⟩

/-- ORM row of table `systems` (class `System`; the spec calls it Host):
unique `ip_address`, OS identity, first/last seen timestamps. -/
structure SystemRow where
  id : Nat
  ip_address : String
  os_name : String
  os_version : String
  first_seen : Nat
  last_seen : Nat
deriving Repr, DecidableEq

/-- ORM row of table `collections` (class `Collection`): one snapshot
owned by a system; `cpu_usage_percent` is nullable. -/
structure Collection where
  id : Nat
  system_id : Nat
  collection_timestamp : Nat
  cpu_usage_percent : Option Rat
deriving Repr, DecidableEq

/-- ORM row of table `processes` (class `Process`). -/
structure Process where
  id : Nat
  collection_id : Nat
  pid : Int
  name : String
  username : Option String
deriving Repr, DecidableEq

/-- ORM row of table `logged_users` (class `LoggedUser`). -/
structure LoggedUser where
  id : Nat
  collection_id : Nat
  username : String
  terminal : Option String
deriving Repr, DecidableEq

/-- The durable relational store: the four tables. -/
structure Store where
  systems : List SystemRow
  collections : List Collection
  processes : List Process
  logged_users : List LoggedUser
deriving Repr, DecidableEq

/-- The store before any ingest. -/
def emptyStore : Store := ⟨[], [], [], []⟩

/-- Python `str.split(sep)` on a one-character separator, over the
character list of the string: splits at every occurrence and keeps empty
fields (`"a  b".split(" ") == ["a", "", "b"]`, `"".split(" ") == [""]`). -/
def splitFields (sep : Char) : List Char → List (List Char)
  | [] => [[]]
  | c :: rest =>
    match splitFields sep rest with
    | [] => [[]]
    | f :: fs => if c = sep then [] :: f :: fs else (c :: f) :: fs

/-- `verify_token`: the request is authorized iff the `Authorization`
header starts with `"Bearer "` and its second space-separated field
(Python `authorization.split(" ")[1]`, which keeps empty fields) equals
the configured secret.  When the prefix test fails Python short-circuits
before indexing, and when it succeeds the split has at least two fields,
so the `getD` default is never the deciding value. -/
def verify_token (authorization token : String) : Bool :=
  List.isPrefixOf "Bearer ".data authorization.data &&
    ((splitFields ' ' authorization.data).getD 1 [] == token.data)

/-- Default secret from `API_TOKEN = os.getenv("API_TOKEN", ...)`. -/
def defaultApiToken : String := "micompania_secret_token_12345"

/-- The request data the handlers look at: the `x-forwarded-for` header
(if sent) and the direct connection address `request.client.host`. -/
structure RequestInfo where
  x_forwarded_for : Option String
  client_host : String
deriving Repr, DecidableEq

/-- `request.headers.get("x-forwarded-for", request.client.host)`. -/
def resolveClientIp (req : RequestInfo) : String :=
  req.x_forwarded_for.getD req.client_host

/-- Outcome of a request: a JSON success body with its HTTP status code,
or an `HTTPException` with status code and detail. -/
inductive Outcome where
  | ok (code : Nat) (status : String) (message : String) : Outcome
  | err (code : Nat) (detail : String) : Outcome
deriving Repr, DecidableEq

/-- The host-lookup step of `collect_data`: look up `System` by
`ip_address`.  If absent, add a row with the payload's OS fields and both
timestamps defaulted to now; if present, set `last_seen = utcnow()` on
that row and leave everything else alone.  Returns the resolved row and
the updated `systems` table. -/
def resolveSystem (s : Store) (data : SystemData) (client_ip : String)
    (now : Nat) : SystemRow × List SystemRow :=
  match s.systems.find? (fun u => u.ip_address == client_ip) with
  | none =>
    let u : SystemRow :=
      { id := s.systems.length, ip_address := client_ip,
        os_name := data.os_name, os_version := data.os_version,
        first_seen := now, last_seen := now }
    (u, s.systems ++ [u])
  | some u =>
    let u' : SystemRow := { u with last_seen := now }
    (u', s.systems.map (fun v => if v.id == u.id then u' else v))

/-- Child `Process` rows for a new collection: one row per
`ProcessInfo`-shaped entry (`isinstance(proc_data, ProcessInfo)`), raw
dict entries are skipped; ids continue the table's auto-increment. -/
def procRows (cid : Nat) (startId : Nat) : List ProcEntry → List Process
  | [] => []
  | .inl p :: rest =>
    { id := startId, collection_id := cid, pid := p.pid, name := p.name,
      username := p.username } :: procRows cid (startId + 1) rest
  | .inr _ :: rest => procRows cid startId rest

/-- Child `LoggedUser` rows: one per entry when `logged_in_users` is a
list (`isinstance(data.logged_in_users, list)`), none when it is a raw
dict. -/
def userRowsList (cid : Nat) (startId : Nat) : List UserInfo → List LoggedUser
  | [] => []
  | u :: rest =>
    { id := startId, collection_id := cid, username := u.user,
      terminal := u.terminal } :: userRowsList cid (startId + 1) rest

/-- Dispatch on the shape of `logged_in_users`. -/
def userRows (cid : Nat) (startId : Nat) :
    List UserInfo ⊕ List (String × Json) → List LoggedUser
  | .inl l => userRowsList cid startId l
  | .inr _ => []

/-- The body of `collect_data` after authorization and schema validation:
resolve the caller address, upsert the host, create the `Collection` with
`cpu_usage_percent` copied from `cpu_info.usage_percent`, create children,
and commit.  `commitOk = false` injects a persistence failure at
`db.commit()`: the scoped session rolls back, the durable store is
unchanged, and FastAPI surfaces a 500. -/
def collect_data (data : SystemData) (req : RequestInfo) (now : Nat)
    (commitOk : Bool) (s : Store) : Store × Outcome :=
  let client_ip := resolveClientIp req
  let su := resolveSystem s data client_ip now
  let c : Collection :=
    { id := s.collections.length, system_id := su.1.id,
      collection_timestamp := now,
      cpu_usage_percent := data.cpu_info.usage_percent }
  let newProcs := procRows c.id s.processes.length data.running_processes
  let newUsers := userRows c.id s.logged_users.length data.logged_in_users
  if commitOk then
    ({ systems := su.2, collections := s.collections ++ [c],
       processes := s.processes ++ newProcs,
       logged_users := s.logged_users ++ newUsers },
     .ok 201 "success"
       ("Datos de " ++ client_ip ++ " almacenados en la base de datos."))
  else (s, .err 500 "Internal Server Error")

/-- The full `POST /collect` endpoint: the route dependency
`verify_token` runs first (401 on mismatch, nothing touched), then the
body is validated against `SystemData` (422 on shape violation, nothing
touched), then `collect_data` runs. -/
def collect_endpoint (token authorization : String) (body : Json)
    (req : RequestInfo) (now : Nat) (commitOk : Bool) (s : Store) :
    Store × Outcome :=
  if verify_token authorization token then
    match validateSystemData body with
    | .error _ => (s, .err 422 "Unprocessable Entity")
    | .ok data => collect_data data req now commitOk s
  else (s, .err 401 "Token de autorización inválido")

/-- The SQL join condition of the query:
`select(Collection).join(System).where(System.ip_address == ip)` keeps a
collection iff some system row carries its `system_id` and the queried
address. -/
def belongsTo (s : Store) (c : Collection) (ip : String) : Bool :=
  s.systems.any (fun u => u.id == c.system_id && u.ip_address == ip)

/-- One element of the query response:
`{collection_timestamp, cpu_usage, processes: [{pid, name}],
users: [{user}]}`, children fetched by `collection_id`. -/
structure QueryRecord where
  collection_timestamp : Nat
  cpu_usage : Option Rat
  processes : List (Int × String)
  users : List String
deriving Repr, DecidableEq

/-- Projection of one collection row into a response record. -/
def projectCollection (s : Store) (c : Collection) : QueryRecord :=
  { collection_timestamp := c.collection_timestamp,
    cpu_usage := c.cpu_usage_percent,
    processes := (s.processes.filter (fun p => p.collection_id == c.id)).map
      (fun p => (p.pid, p.name)),
    users := (s.logged_users.filter (fun u => u.collection_id == c.id)).map
      (fun u => u.username) }

/-- `ORDER BY collection_timestamp DESC` as a relation: `a` precedes `b`
iff `b`'s timestamp is at most `a`'s. -/
def tsDesc (a b : Collection) : Prop :=
  b.collection_timestamp ≤ a.collection_timestamp

instance : DecidableRel tsDesc := fun a b =>
  inferInstanceAs (Decidable (b.collection_timestamp ≤ a.collection_timestamp))

instance : IsTotal Collection tsDesc :=
  ⟨fun a b => Nat.le_total b.collection_timestamp a.collection_timestamp⟩

instance : IsTrans Collection tsDesc :=
  ⟨fun _ _ _ h1 h2 => Nat.le_trans h2 h1⟩

/-- `GET /query/{ip_address}`: fetch the collections of the host at that
address ordered newest first, capped at 5 (`.limit(5)`); when the fetched
list is empty (`if not collections`) raise 404 naming the address; else
project each collection. -/
def query_data (ip_address : String) (s : Store) :
    Except (Nat × String) (List QueryRecord) :=
  if ((List.insertionSort tsDesc
      (s.collections.filter (fun c => belongsTo s c ip_address))).take
        5).isEmpty then
    .error (404, "No se encontraron datos para la IP: " ++ ip_address)
  else
    .ok (((List.insertionSort tsDesc
      (s.collections.filter (fun c => belongsTo s c ip_address))).take
        5).map (projectCollection s))

/-! ### Helper lemmas -/

theorem procRows_collection_id (l : List ProcEntry) (cid sid : Nat) :
    ∀ p ∈ procRows cid sid l, p.collection_id = cid := by
  induction l generalizing sid with
  | nil => intro p hp; simp [procRows] at hp
  | cons e rest ih =>
    intro p hp
    match e with
    | .inl pi =>
      simp only [procRows, List.mem_cons] at hp
      rcases hp with h | h
      · subst h; rfl
      · exact ih _ p h
    | .inr fs => exact ih _ p hp

theorem procRows_shape (l : List ProcEntry) (cid sid : Nat) :
    (procRows cid sid l).map (fun p => (p.pid, p.name, p.username))
      = l.filterMap (fun e =>
          match e with
          | Sum.inl p => some (p.pid, p.name, p.username)
          | Sum.inr _ => none) := by
  induction l generalizing sid with
  | nil => rfl
  | cons e rest ih =>
    match e with
    | .inl pi => simp [procRows, List.filterMap_cons, ih]
    | .inr fs => simp [procRows, List.filterMap_cons, ih]

theorem userRowsList_collection_id (l : List UserInfo) (cid sid : Nat) :
    ∀ u ∈ userRowsList cid sid l, u.collection_id = cid := by
  induction l generalizing sid with
  | nil => intro u hu; simp [userRowsList] at hu
  | cons e rest ih =>
    intro u hu
    simp only [userRowsList, List.mem_cons] at hu
    rcases hu with h | h
    · subst h; rfl
    · exact ih _ u h

theorem userRows_collection_id (lu : List UserInfo ⊕ List (String × Json))
    (cid sid : Nat) : ∀ u ∈ userRows cid sid lu, u.collection_id = cid := by
  match lu with
  | .inl l => exact userRowsList_collection_id l cid sid
  | .inr fs => intro u hu; simp [userRows] at hu

theorem userRowsList_shape (l : List UserInfo) (cid sid : Nat) :
    (userRowsList cid sid l).map (fun u => (u.username, u.terminal))
      = l.map (fun x => (x.user, x.terminal)) := by
  induction l generalizing sid with
  | nil => rfl
  | cons e rest ih => simp [userRowsList, ih]

theorem resolveSystem_fst_mem_snd (s : Store) (data : SystemData)
    (ip : String) (now : Nat) :
    (resolveSystem s data ip now).1 ∈ (resolveSystem s data ip now).2 := by
  unfold resolveSystem
  cases hf : s.systems.find? (fun u => u.ip_address == ip) with
  | none => simp
  | some u =>
    simp only [List.mem_map]
    exact ⟨u, List.mem_of_find?_eq_some hf, by simp⟩

theorem validateSystemData_ok_arr (j : Json) (d : SystemData)
    (h : validateSystemData j = .ok d) :
    ∃ es, j.getField "running_processes" = some (Json.arr es) := by
  unfold validateSystemData at h
  split at h
  · exact absurd h (by simp)
  · split at h
    · exact absurd h (by simp)
    · split at h
      · exact absurd h (by simp)
      · rename_i hrp
        split at h
        · exact absurd h (by simp)
        · rename_i heq
          unfold reqField at heq
          split at heq
          · exact absurd heq (by simp)
          · exact absurd heq (by simp)
          · rename_i x hget
            unfold validateRunningProcesses at heq
            split at heq
            · rename_i es; exact ⟨es, hget⟩
            · exact absurd heq (by simp)

/-- The `Collection` row a successful ingest of `data` from `client_ip`
at time `now` appends to store `s`:
`Collection(system_id=system.id, cpu_usage_percent=data.cpu_info.usage_percent)`,
with the timestamp defaulted to now and the next auto-increment id. -/
def newCollection (s : Store) (data : SystemData) (client_ip : String)
    (now : Nat) : Collection :=
  { id := s.collections.length,
    system_id := (resolveSystem s data client_ip now).1.id,
    collection_timestamp := now,
    cpu_usage_percent := data.cpu_info.usage_percent }

/-! ### Shared concrete data for witnesses -/

/-- A well-formed typed payload: one well-shaped process entry, one raw
dict entry, a sequence of one logged-in user, `usage_percent = 12.5`. -/
def demoData : SystemData :=
  { os_name := "Linux", os_version := "5.15",
    cpu_info := ⟨none, none, none, some ((25 : Rat) / 2), none⟩,
    running_processes := [Sum.inl ⟨1, "init", none⟩, Sum.inr [("weird", Json.null)]],
    logged_in_users := Sum.inl [⟨"root", some "tty1"⟩] }

/-- A request carrying a forwarded address. -/
def demoReq : RequestInfo := ⟨some "10.0.0.5", "172.17.0.2"⟩

/-! ### Claims -/

/-- C10: `verify_token` authorizes a request iff the `Authorization`
header starts with `"Bearer "` and its second space-separated field
equals the configured secret; hence `"Bearer <secret> <anything>"` is
accepted while `"Bearer  <secret>"` (two spaces) is rejected. -/
theorem verify_token_characterization :
    (∀ a t : String, verify_token a t = true ↔
      (List.isPrefixOf "Bearer ".data a.data = true ∧
        (splitFields ' ' a.data).getD 1 [] = t.data)) ∧
    verify_token ("Bearer " ++ defaultApiToken ++ " anything") defaultApiToken
      = true ∧
    verify_token ("Bearer  " ++ defaultApiToken) defaultApiToken = false := by
  refine ⟨fun a t => ?_, by decide, by decide⟩
  simp [verify_token]

/-- C7: an ingest whose bearer credential fails `verify_token` gets a 401
authorization error and leaves the store exactly as it was (no row of any
kind written). -/
theorem collect_bad_token_401 (token auth : String) (body : Json)
    (req : RequestInfo) (now : Nat) (ck : Bool) (s : Store)
    (h : verify_token auth token = false) :
    collect_endpoint token auth body req now ck s
      = (s, .err 401 "Token de autorización inválido") := by
  simp [collect_endpoint, h]

/-- Witness for C7 at a concrete wrong token. -/
theorem collect_bad_token_401_witness :
    verify_token "Bearer wrong_token" defaultApiToken = false ∧
    collect_endpoint defaultApiToken "Bearer wrong_token" (Json.obj [])
        demoReq 3 true emptyStore
      = (emptyStore, .err 401 "Token de autorización inválido") :=
  ⟨by decide,
   collect_bad_token_401 defaultApiToken "Bearer wrong_token" (Json.obj [])
     demoReq 3 true emptyStore (by decide)⟩

/-- C8: the resolved caller address is the `x-forwarded-for` header when
present, else the direct connection address, and a successful ingest
answers HTTP 201 with status `success` and a message echoing the resolved
address (`"Datos de <address> almacenados en la base de datos."`). -/
theorem collect_success_response (data : SystemData) (req : RequestInfo)
    (now : Nat) (s : Store) :
    (collect_data data req now true s).2
      = .ok 201 "success"
          ("Datos de " ++ resolveClientIp req ++
            " almacenados en la base de datos.") ∧
    (∀ f, req.x_forwarded_for = some f → resolveClientIp req = f) ∧
    (req.x_forwarded_for = none → resolveClientIp req = req.client_host) := by
  refine ⟨rfl, ?_, ?_⟩
  · intro f hf; simp [resolveClientIp, hf]
  · intro hf; simp [resolveClientIp, hf]

/-- Witness for C8 at a concrete request with a forwarded address. -/
theorem collect_success_response_witness :
    (collect_data demoData demoReq 100 true emptyStore).2
      = .ok 201 "success"
          ("Datos de " ++ resolveClientIp demoReq ++
            " almacenados en la base de datos.") ∧
    resolveClientIp demoReq = "10.0.0.5" :=
  ⟨(collect_success_response demoData demoReq 100 emptyStore).1,
   (collect_success_response demoData demoReq 100 emptyStore).2.1
     "10.0.0.5" rfl⟩

/-- The store after one successful ingest of `demoData` from `demoReq`
at time 1. -/
def demoStore1 : Store := (collect_data demoData demoReq 1 true emptyStore).1

/-- The host row `demoStore1` holds for address `10.0.0.5`. -/
def demoHost : SystemRow := ⟨0, "10.0.0.5", "Linux", "5.15", 1, 1⟩

/-- C6: an ingest from an address whose Host row already exists creates
no second Host row: the `systems` table keeps its length, the matched row
is replaced by itself with only `last_seen` set to now (id, address, OS
fields, `first_seen` all unchanged, whatever OS fields the payload
carries), and every other row is untouched. -/
theorem collect_existing_host_frame (data : SystemData) (req : RequestInfo)
    (now : Nat) (s : Store) (u : SystemRow)
    (h : s.systems.find? (fun v => v.ip_address == resolveClientIp req)
          = some u) :
    ((collect_data data req now true s).1).systems
      = s.systems.map (fun v =>
          if v.id == u.id then { u with last_seen := now } else v) ∧
    ((collect_data data req now true s).1).systems.length
      = s.systems.length ∧
    ({ u with last_seen := now } : SystemRow).id = u.id ∧
    ({ u with last_seen := now } : SystemRow).ip_address = u.ip_address ∧
    ({ u with last_seen := now } : SystemRow).os_name = u.os_name ∧
    ({ u with last_seen := now } : SystemRow).os_version = u.os_version ∧
    ({ u with last_seen := now } : SystemRow).first_seen = u.first_seen ∧
    ({ u with last_seen := now } : SystemRow).last_seen = now ∧
    u.ip_address = resolveClientIp req := by
  have hmem := List.find?_some h
  simp only [beq_iff_eq] at hmem
  refine ⟨?_, ?_, rfl, rfl, rfl, rfl, rfl, rfl, hmem⟩
  · simp [collect_data, resolveSystem, h]
  · simp [collect_data, resolveSystem, h]

/-- Witness for C6: a second ingest into `demoStore1` at time 7. -/
theorem collect_existing_host_frame_witness :
    demoStore1.systems.find?
        (fun v => v.ip_address == resolveClientIp demoReq) = some demoHost ∧
    (((collect_data demoData demoReq 7 true demoStore1).1).systems
        = demoStore1.systems.map (fun v =>
            if v.id == demoHost.id then { demoHost with last_seen := 7 }
            else v) ∧
      ((collect_data demoData demoReq 7 true demoStore1).1).systems.length
        = demoStore1.systems.length ∧
      ({ demoHost with last_seen := 7 } : SystemRow).id = demoHost.id ∧
      ({ demoHost with last_seen := 7 } : SystemRow).ip_address
        = demoHost.ip_address ∧
      ({ demoHost with last_seen := 7 } : SystemRow).os_name
        = demoHost.os_name ∧
      ({ demoHost with last_seen := 7 } : SystemRow).os_version
        = demoHost.os_version ∧
      ({ demoHost with last_seen := 7 } : SystemRow).first_seen
        = demoHost.first_seen ∧
      ({ demoHost with last_seen := 7 } : SystemRow).last_seen = 7 ∧
      demoHost.ip_address = resolveClientIp demoReq) :=
  ⟨by decide,
   collect_existing_host_frame demoData demoReq 7 demoStore1 demoHost
     (by decide)⟩

/-- C9: `last_seen` never decreases.  (a) After any ingest, every row of
the `systems` table is either an untouched row of the old table or has
`last_seen` equal to the ingest time, so under a non-decreasing clock no
row's `last_seen` drops; the query handler reads only.  (b) Two ingests
from the same address at times `t1 ≤ t2` leave exactly one host row whose
`first_seen` is `t1` and whose `last_seen` is `t2`, hence at least the
`first_seen` and `last_seen` values left by the first ingest (both
`t1`). -/
theorem last_seen_monotone :
    (∀ (data : SystemData) (req : RequestInfo) (now : Nat) (ck : Bool)
      (s : Store), ∀ v ∈ ((collect_data data req now ck s).1).systems,
        v ∈ s.systems ∨ v.last_seen = now) ∧
    (∀ (d1 d2 : SystemData) (req : RequestInfo) (t1 t2 : Nat), t1 ≤ t2 →
      ∃ u : SystemRow,
        (((collect_data d2 req t2 true
            (collect_data d1 req t1 true emptyStore).1).1).systems = [u] ∧
         u.first_seen = t1 ∧ u.last_seen = t2 ∧
         (∀ w ∈ ((collect_data d1 req t1 true emptyStore).1).systems,
            w.first_seen ≤ u.last_seen ∧ w.last_seen ≤ u.last_seen))) := by
  constructor
  · intro data req now ck s v hv
    simp only [collect_data] at hv
    by_cases hck : ck
    · subst hck
      simp only [if_true] at hv
      unfold resolveSystem at hv
      cases hf : s.systems.find? (fun u => u.ip_address == resolveClientIp req) with
      | none =>
        rw [hf] at hv
        simp only [List.mem_append, List.mem_singleton] at hv
        rcases hv with h | h
        · exact Or.inl h
        · subst h; exact Or.inr rfl
      | some u =>
        rw [hf] at hv
        simp only [List.mem_map] at hv
        obtain ⟨w, hw, hveq⟩ := hv
        by_cases hid : (w.id == u.id) = true
        · rw [if_pos hid] at hveq
          subst hveq; exact Or.inr rfl
        · rw [if_neg hid] at hveq
          subst hveq; exact Or.inl hw
    · simp only [if_neg hck] at hv
      exact Or.inl hv
  · intro d1 d2 req t1 t2 h12
    refine ⟨⟨0, resolveClientIp req, d1.os_name, d1.os_version, t1, t2⟩,
      ?_, rfl, rfl, ?_⟩
    · simp [collect_data, resolveSystem, emptyStore]
    · intro w hw
      simp only [collect_data, resolveSystem, emptyStore] at hw
      simp at hw
      subst hw
      exact ⟨h12, h12⟩

/-- Witness for C9 at concrete times `1 ≤ 2`. -/
theorem last_seen_monotone_witness :
    (1 : Nat) ≤ 2 ∧
    (∃ u : SystemRow,
      (((collect_data demoData demoReq 2 true
          (collect_data demoData demoReq 1 true emptyStore).1).1).systems
            = [u] ∧
       u.first_seen = 1 ∧ u.last_seen = 2 ∧
       (∀ w ∈ ((collect_data demoData demoReq 1 true emptyStore).1).systems,
          w.first_seen ≤ u.last_seen ∧ w.last_seen ≤ u.last_seen))) :=
  ⟨by decide,
   last_seen_monotone.2 demoData demoData demoReq 1 2 (by decide)⟩

/-- C3: every ingest is atomic.  For all inputs, either the durable store
is exactly the old store and the outcome is an error (401, 422 or 500 —
nothing written), or one new Collection together with all of its Process
and LoggedUser children is appended in the same step; and an injected
persistence failure at commit always rolls back to the untouched store. -/
theorem collect_atomic (token auth : String) (body : Json)
    (req : RequestInfo) (now : Nat) (ck : Bool) (s : Store) :
    (((collect_endpoint token auth body req now ck s).1 = s ∧
      ∃ code detail, (collect_endpoint token auth body req now ck s).2
        = .err code detail) ∨
     (∃ c ps us,
       ((collect_endpoint token auth body req now ck s).1).collections
          = s.collections ++ [c] ∧
       ((collect_endpoint token auth body req now ck s).1).processes
          = s.processes ++ ps ∧
       (∀ p ∈ ps, p.collection_id = c.id) ∧
       ((collect_endpoint token auth body req now ck s).1).logged_users
          = s.logged_users ++ us ∧
       (∀ w ∈ us, w.collection_id = c.id))) ∧
    (ck = false → (collect_endpoint token auth body req now ck s).1 = s) := by
  constructor
  · by_cases hauth : verify_token auth token
    · cases hval : validateSystemData body with
      | error e =>
        left
        constructor
        · simp [collect_endpoint, hauth, hval]
        · exact ⟨422, "Unprocessable Entity", by simp [collect_endpoint, hauth, hval]⟩
      | ok data =>
        by_cases hck : ck
        · subst hck
          right
          refine ⟨newCollection s data (resolveClientIp req) now,
            procRows s.collections.length s.processes.length
              data.running_processes,
            userRows s.collections.length s.logged_users.length
              data.logged_in_users, ?_, ?_,
            procRows_collection_id _ _ _, ?_,
            userRows_collection_id _ _ _⟩
          · simp [collect_endpoint, hauth, hval, collect_data, newCollection]
          · simp [collect_endpoint, hauth, hval, collect_data, newCollection]
          · simp [collect_endpoint, hauth, hval, collect_data, newCollection]
        · left
          rw [Bool.not_eq_true] at hck
          constructor
          · simp [collect_endpoint, hauth, hval, collect_data, hck]
          · exact ⟨500, "Internal Server Error",
              by simp [collect_endpoint, hauth, hval, collect_data, hck]⟩
    · rw [Bool.not_eq_true] at hauth
      left
      constructor
      · simp [collect_endpoint, hauth]
      · exact ⟨401, "Token de autorización inválido",
          by simp [collect_endpoint, hauth]⟩
  · intro hck
    subst hck
    by_cases hauth : verify_token auth token
    · cases hval : validateSystemData body with
      | error e => simp [collect_endpoint, hauth, hval]
      | ok data => simp [collect_endpoint, hauth, hval, collect_data]
    · rw [Bool.not_eq_true] at hauth
      simp [collect_endpoint, hauth]

/-- Witness for C3: the rollback conjunct at a concrete failed commit. -/
theorem collect_atomic_witness :
    (((collect_endpoint defaultApiToken
        ("Bearer " ++ defaultApiToken) (Json.obj []) demoReq 9 false
        demoStore1).1 = demoStore1 ∧
      ∃ code detail, (collect_endpoint defaultApiToken
        ("Bearer " ++ defaultApiToken) (Json.obj []) demoReq 9 false
        demoStore1).2 = .err code detail) ∨
     (∃ c ps us,
       ((collect_endpoint defaultApiToken ("Bearer " ++ defaultApiToken)
          (Json.obj []) demoReq 9 false demoStore1).1).collections
          = demoStore1.collections ++ [c] ∧
       ((collect_endpoint defaultApiToken ("Bearer " ++ defaultApiToken)
          (Json.obj []) demoReq 9 false demoStore1).1).processes
          = demoStore1.processes ++ ps ∧
       (∀ p ∈ ps, p.collection_id = c.id) ∧
       ((collect_endpoint defaultApiToken ("Bearer " ++ defaultApiToken)
          (Json.obj []) demoReq 9 false demoStore1).1).logged_users
          = demoStore1.logged_users ++ us ∧
       (∀ w ∈ us, w.collection_id = c.id))) ∧
    (collect_endpoint defaultApiToken ("Bearer " ++ defaultApiToken)
      (Json.obj []) demoReq 9 false demoStore1).1 = demoStore1 :=
  ⟨(collect_atomic defaultApiToken ("Bearer " ++ defaultApiToken)
      (Json.obj []) demoReq 9 false demoStore1).1,
   (collect_atomic defaultApiToken ("Bearer " ++ defaultApiToken)
      (Json.obj []) demoReq 9 false demoStore1).2 rfl⟩

/-- `demoData` with `logged_in_users` in its mapping form. -/
def demoDataDict : SystemData :=
  { demoData with logged_in_users := Sum.inr [("note", Json.null)] }

/-- C4: a successful ingest appends exactly one Collection row, owned by
the resolved host (which is in the stored `systems` table), with
`cpu_usage_percent` copied verbatim from the payload (`none` stays
`none`); it appends one Process row per `ProcessInfo`-shaped entry of the
process list, copying pid/name/username and silently skipping raw-dict
entries; and it appends LoggedUser rows copying user/terminal exactly
when `logged_in_users` is a sequence — the mapping form yields no rows. -/
theorem collect_success_writes (data : SystemData) (req : RequestInfo)
    (now : Nat) (s : Store) :
    ((collect_data data req now true s).1).collections
      = s.collections ++ [newCollection s data (resolveClientIp req) now] ∧
    (newCollection s data (resolveClientIp req) now).cpu_usage_percent
      = data.cpu_info.usage_percent ∧
    (newCollection s data (resolveClientIp req) now).system_id
      = (resolveSystem s data (resolveClientIp req) now).1.id ∧
    (resolveSystem s data (resolveClientIp req) now).1
      ∈ ((collect_data data req now true s).1).systems ∧
    ((collect_data data req now true s).1).processes
      = s.processes ++ procRows s.collections.length s.processes.length
          data.running_processes ∧
    (procRows s.collections.length s.processes.length
        data.running_processes).map (fun p => (p.pid, p.name, p.username))
      = data.running_processes.filterMap (fun e =>
          match e with
          | Sum.inl p => some (p.pid, p.name, p.username)
          | Sum.inr _ => none) ∧
    ((collect_data data req now true s).1).logged_users
      = s.logged_users ++ userRows s.collections.length
          s.logged_users.length data.logged_in_users ∧
    (∀ l, data.logged_in_users = Sum.inl l →
      (userRows s.collections.length s.logged_users.length
          data.logged_in_users).map (fun w => (w.username, w.terminal))
        = l.map (fun x => (x.user, x.terminal))) ∧
    (∀ fs, data.logged_in_users = Sum.inr fs →
      userRows s.collections.length s.logged_users.length
        data.logged_in_users = []) := by
  refine ⟨rfl, rfl, rfl,
    resolveSystem_fst_mem_snd s data (resolveClientIp req) now,
    rfl, procRows_shape _ _ _, rfl, ?_, ?_⟩
  · intro l hl
    rw [hl]
    exact userRowsList_shape l _ _
  · intro fs hf
    rw [hf]
    rfl

/-- Witness for C4: `demoData` exercises the sequence branch of
`logged_in_users`, `demoDataDict` the mapping branch. -/
theorem collect_success_writes_witness :
    ((collect_data demoData demoReq 100 true emptyStore).1).collections
      = emptyStore.collections
          ++ [newCollection emptyStore demoData (resolveClientIp demoReq)
                100] ∧
    (userRows emptyStore.collections.length emptyStore.logged_users.length
        demoData.logged_in_users).map (fun w => (w.username, w.terminal))
      = ([⟨"root", some "tty1"⟩] : List UserInfo).map
          (fun x => (x.user, x.terminal)) ∧
    userRows emptyStore.collections.length emptyStore.logged_users.length
        demoDataDict.logged_in_users = [] :=
  ⟨(collect_success_writes demoData demoReq 100 emptyStore).1,
   (collect_success_writes demoData demoReq 100
      emptyStore).2.2.2.2.2.2.2.1 [⟨"root", some "tty1"⟩] rfl,
   (collect_success_writes demoDataDict demoReq 100
      emptyStore).2.2.2.2.2.2.2.2 [("note", Json.null)] rfl⟩

/-- C5: every successful query answer holds at most 5 records, its
snapshot timestamps are in descending order (newest first), and every
record is the flat projection (timestamp, CPU usage, `{pid, name}` list,
`{user}` list) of a stored collection owned by the queried address. -/
theorem query_results_shape (ip : String) (s : Store)
    (recs : List QueryRecord) (h : query_data ip s = .ok recs) :
    recs.length ≤ 5 ∧
    List.Sorted (fun a b : Nat => b ≤ a)
      (recs.map (fun r => r.collection_timestamp)) ∧
    ∀ r ∈ recs, ∃ c, c ∈ s.collections ∧ belongsTo s c ip = true ∧
      r = projectCollection s c := by
  unfold query_data at h
  split at h
  · exact absurd h (by simp)
  · simp only [Except.ok.injEq] at h
    subst h
    have hs := List.sorted_insertionSort tsDesc
      (s.collections.filter (fun c => belongsTo s c ip))
    have ht : List.Sorted tsDesc
        ((List.insertionSort tsDesc
          (s.collections.filter (fun c => belongsTo s c ip))).take 5) :=
      List.Pairwise.sublist (List.take_sublist 5 _) hs
    refine ⟨?_, ?_, ?_⟩
    · simp
    · rw [List.map_map]
      exact List.pairwise_map.mpr ht
    · intro r hr
      rw [List.mem_map] at hr
      obtain ⟨c, hc, hrc⟩ := hr
      have hc2 : c ∈ List.insertionSort tsDesc
          (s.collections.filter (fun c => belongsTo s c ip)) :=
        List.take_subset 5 _ hc
      rw [List.mem_insertionSort] at hc2
      rw [List.mem_filter] at hc2
      exact ⟨c, hc2.1, hc2.2, hrc.symm⟩

/-- A host owning six collections with distinct timestamps; children hang
off the collection with timestamp 60. -/
def demoStore6 : Store :=
  { systems := [⟨0, "10.0.0.9", "Linux", "6.1", 0, 0⟩],
    collections := [⟨0, 0, 10, none⟩, ⟨1, 0, 40, some 1⟩, ⟨2, 0, 20, none⟩,
      ⟨3, 0, 60, none⟩, ⟨4, 0, 30, none⟩, ⟨5, 0, 50, none⟩],
    processes := [⟨0, 3, 7, "init", none⟩],
    logged_users := [⟨0, 3, "root", none⟩] }

/-- The five records the query returns on `demoStore6`: the sixth-newest
collection (timestamp 10) is cut off by the limit. -/
def demoRecs6 : List QueryRecord :=
  [⟨60, none, [(7, "init")], ["root"]⟩, ⟨50, none, [], []⟩,
   ⟨40, some 1, [], []⟩, ⟨30, none, [], []⟩, ⟨20, none, [], []⟩]

/-- Witness for C5 on a host with six stored collections. -/
theorem query_results_shape_witness :
    query_data "10.0.0.9" demoStore6 = .ok demoRecs6 ∧
    (demoRecs6.length ≤ 5 ∧
     List.Sorted (fun a b : Nat => b ≤ a)
       (demoRecs6.map (fun r => r.collection_timestamp)) ∧
     ∀ r ∈ demoRecs6, ∃ c, c ∈ demoStore6.collections ∧
       belongsTo demoStore6 c "10.0.0.9" = true ∧
       r = projectCollection demoStore6 c) :=
  ⟨rfl, query_results_shape "10.0.0.9" demoStore6 demoRecs6 rfl⟩

/-- A store holding one Host row for `10.0.0.5` that owns zero
Collections. -/
def hostOnlyStore : Store :=
  ⟨[⟨0, "10.0.0.5", "Linux", "5.15", 1, 1⟩], [], [], []⟩

/-- Counterexample to C1 as stated: a Host row for `10.0.0.5` exists and
owns zero Collections, yet the query handler raises 404 instead of
returning success with an empty array. -/
theorem query_zero_collections_404_cex :
    hostOnlyStore.systems.map (fun u => u.ip_address) = ["10.0.0.5"] ∧
    hostOnlyStore.collections = [] ∧
    query_data "10.0.0.5" hostOnlyStore
      = .error (404, "No se encontraron datos para la IP: 10.0.0.5") :=
  ⟨rfl, rfl, rfl⟩

/-- C1 (amended): a query of an address with no Host row fails with 404
naming the address; and a query of an address whose Host owns zero
Collections ALSO fails with the same 404 — the not-found check is keyed
on the fetched collection list, which is empty in both cases, not on the
host row. -/
theorem query_404_on_empty_fetch (ip : String) (s : Store) :
    ((∀ u ∈ s.systems, u.ip_address ≠ ip) →
      query_data ip s
        = .error (404, "No se encontraron datos para la IP: " ++ ip)) ∧
    (s.collections.filter (fun c => belongsTo s c ip) = [] →
      query_data ip s
        = .error (404, "No se encontraron datos para la IP: " ++ ip)) := by
  have key : ∀ hf : s.collections.filter (fun c => belongsTo s c ip) = [],
      query_data ip s
        = .error (404, "No se encontraron datos para la IP: " ++ ip) := by
    intro hf
    unfold query_data
    rw [hf]
    rfl
  constructor
  · intro hu
    apply key
    rw [List.filter_eq_nil_iff]
    intro c _
    simp only [belongsTo, List.any_eq_true, Bool.and_eq_true, beq_iff_eq,
      not_exists]
    rintro u ⟨humem, -, hip⟩
    exact hu u humem hip
  · exact key

/-- Witness for C1 (amended): both branches at concrete stores — an
address `1.2.3.4` unknown to `hostOnlyStore`, and the address
`10.0.0.5` whose host owns zero collections. -/
theorem query_404_on_empty_fetch_witness :
    (∀ u ∈ hostOnlyStore.systems, u.ip_address ≠ "1.2.3.4") ∧
    query_data "1.2.3.4" hostOnlyStore
      = .error (404, "No se encontraron datos para la IP: " ++ "1.2.3.4") ∧
    hostOnlyStore.collections.filter
      (fun c => belongsTo hostOnlyStore c "10.0.0.5") = [] ∧
    query_data "10.0.0.5" hostOnlyStore
      = .error (404, "No se encontraron datos para la IP: " ++ "10.0.0.5") :=
  ⟨by decide,
   (query_404_on_empty_fetch "1.2.3.4" hostOnlyStore).1 (by decide),
   rfl,
   (query_404_on_empty_fetch "10.0.0.5" hostOnlyStore).2 rfl⟩

/-- An authenticated-shape payload that is valid except that
`running_processes` is a mapping (JSON object) instead of a sequence. -/
def mappingProcsBody : Json :=
  Json.obj [("os_name", Json.str "Linux"), ("os_version", Json.str "5.15"),
    ("cpu_info", Json.obj []), ("running_processes", Json.obj []),
    ("logged_in_users", Json.arr [])]

/-- Counterexample to C2 as stated: an authenticated payload whose
`running_processes` field is a mapping is rejected as a schema violation
(`list[ProcessInfo | dict]` demands a sequence), with outcome 422 and
nothing written — it does not succeed. -/
theorem mapping_running_processes_422_cex :
    mappingProcsBody.getField "running_processes" = some (Json.obj []) ∧
    verify_token ("Bearer " ++ defaultApiToken) defaultApiToken = true ∧
    validateSystemData mappingProcsBody = .error "list_type" ∧
    collect_endpoint defaultApiToken ("Bearer " ++ defaultApiToken)
        mappingProcsBody demoReq 5 true emptyStore
      = (emptyStore, .err 422 "Unprocessable Entity") :=
  ⟨rfl, by decide, rfl, by decide⟩

/-- C2 (amended): an authenticated ingest payload whose
`running_processes` field is a mapping rather than a sequence is rejected
as a schema violation (422) with no rows written; only the individual
*entries* of the process sequence may be mappings (yielding no Process
rows), and only `logged_in_users` may be a mapping as a whole. -/
theorem mapping_running_processes_rejected (token auth : String)
    (body : Json) (req : RequestInfo) (now : Nat) (ck : Bool) (s : Store)
    (hauth : verify_token auth token = true)
    (fs : List (String × Json))
    (hrp : body.getField "running_processes" = some (Json.obj fs)) :
    collect_endpoint token auth body req now ck s
      = (s, .err 422 "Unprocessable Entity") := by
  cases hval : validateSystemData body with
  | error e => simp [collect_endpoint, hauth, hval]
  | ok data =>
    obtain ⟨es, hes⟩ := validateSystemData_ok_arr body data hval
    rw [hrp] at hes
    exact absurd hes (by simp)

/-- Witness for C2 (amended) on a non-empty store with a failing commit
flag: the 422 fires before anything is attempted. -/
theorem mapping_running_processes_rejected_witness :
    verify_token ("Bearer " ++ defaultApiToken) defaultApiToken = true ∧
    mappingProcsBody.getField "running_processes" = some (Json.obj []) ∧
    collect_endpoint defaultApiToken ("Bearer " ++ defaultApiToken)
        mappingProcsBody demoReq 6 false demoStore1
      = (demoStore1, .err 422 "Unprocessable Entity") :=
  ⟨by decide, rfl,
   mapping_running_processes_rejected defaultApiToken
     ("Bearer " ++ defaultApiToken) mappingProcsBody demoReq 6 false
     demoStore1 (by decide) [] rfl⟩
